import Mathlib

/-!
Verification development for the serverless-registry token engine
(`src/token.ts`).  The repository's `src/auth.ts` is not available; the
declarations it contributes (`RegistryTokenCapability`,
`RegistryAuthProtocolTokenPayload`, `stripUsernamePasswordFromHeader`) are
modelled from the specification.  The JWT signing/verification library and the
platform `URL`/`Request` objects are external collaborators; they are modelled
abstractly, faithful to the spec's description of their interfaces.
-/

namespace ServerlessRegistry

/-- JavaScript `s.split("/")` on the character list: splitting on every `/`,
with `""` mapping to `[""]`, exactly as `String.prototype.split`. -/
def splitSlashAux : List Char → List (List Char)
  | [] => [[]]
  | c :: rest =>
    match splitSlashAux rest with
    | [] => [[]]
    | h :: t => if c = '/' then [] :: h :: t else (c :: h) :: t

/-- JavaScript `s.split("/")` (token.ts line 169 splits the pathname on `/`). -/
def jsSplitSlash (s : String) : List String :=
  (splitSlashAux s.data).map (fun l => String.mk l)

/-- JavaScript `s.endsWith(suffix)` (token.ts line 81). -/
def jsEndsWith (s suffix : String) : Bool :=
  List.isSuffixOf suffix.data s.data

/-- Modelled from the spec: `RegistryTokenCapability` (declared in the missing
`src/auth.ts`) — "an enumerated value in {pull, push}". -/
inductive RegistryTokenCapability
  | pull
  | push
deriving DecidableEq

/-- Modelled from the spec: `RegistryAuthProtocolTokenPayload` (declared in the
missing `src/auth.ts`) — the signed claim set of §3.  `exp` and `account_id`
are optional; `aud` is optional here because `verifyPayload` (token.ts line
170) guards on its presence before using it. -/
structure RegistryAuthProtocolTokenPayload where
  username : String
  account_id : Option String
  capabilities : List RegistryTokenCapability
  iat : Int
  exp : Option Int
  aud : Option (List String)
deriving DecidableEq

/-- The platform `URL` object, carried in parsed form: `href` (the string the
`Request.url` field exposes) is the concatenation of origin, pathname and
search. -/
structure URLParts where
  origin : String
  pathname : String
  search : String
deriving DecidableEq

/-- The serialized URL string, i.e. what `request.url` is in the code. -/
def URLParts.href (u : URLParts) : String := u.origin ++ u.pathname ++ u.search

/-- Modelled from the spec: a token string as the JWT black box sees it —
either a compact token signed over a payload with some key (identified by a
key-pair id), or a malformed string. -/
inductive JwtToken
  | signed (payload : RegistryAuthProtocolTokenPayload) (keyId : Nat)
  | malformed (raw : String)
deriving DecidableEq

/-- Modelled from the spec: the `Authorization` header of a request, after the
Basic-scheme base64 parsing the spec ascribes to the credential extractor —
either well-formed `Basic` credentials (the password field carries the opaque
token), or a missing/non-Basic/undecodable header. -/
inductive AuthorizationHeader
  | basic (username : String) (password : JwtToken)
  | invalid (raw : String)
deriving DecidableEq

/-- The HTTP `Request` object as the code consumes it: `.method`, `.url`
(parsed form; `request.url` the string is `url.href`), and the
`Authorization` header. -/
structure Request where
  method : String
  url : URLParts
  authorization : Option AuthorizationHeader
deriving DecidableEq

/-- The `{verified, payload}` result shape returned by every verification
entry point. -/
structure VerifyResult where
  verified : Bool
  payload : Option RegistryAuthProtocolTokenPayload
deriving DecidableEq

/-- Modelled from the spec: `jwt.verify(token, publicKey, {algorithm:"ES256"})`
— signature validation against the configured public key; true exactly when
the token was signed with the matching private key; throws on a malformed
token. -/
def jwtVerify (token : JwtToken) (publicKeyId : Nat) : Except String Bool :=
  match token with
  | .malformed _ => .error "invalid token"
  | .signed _ keyId => .ok (keyId == publicKeyId)

/-- Modelled from the spec: `jwt.decode(token).payload` — decodes the claim
set of a well-formed compact token; throws on a malformed token. -/
def jwtDecode (token : JwtToken) : Except String RegistryAuthProtocolTokenPayload :=
  match token with
  | .malformed _ => .error "cannot decode"
  | .signed payload _ => .ok payload

/-- The payload of a well-formed signed token, `none` for a malformed one. -/
def JwtToken.signedPayload : JwtToken → Option RegistryAuthProtocolTokenPayload
  | .signed payload _ => some payload
  | .malformed _ => none

/-- The `RegistryTokens` class state: the configured public key (decoded once
at construction). -/
structure RegistryTokens where
  jwtPublicKey : Nat
deriving DecidableEq

/-- token.ts lines 80-82: `request.url.endsWith("/v2/")` — note this tests the
full URL string, not the parsed pathname. -/
def RegistryTokens.checkIfV2OnlyPath (request : Request) : Bool :=
  jsEndsWith request.url.href "/v2/"

/-- token.ts line 116: `payload.exp && now >= payload.exp`.  JavaScript
truthiness of a number is "not 0 (and not NaN)", so a present `exp` of 0 never
triggers the expiry failure. -/
def expFails (now : Int) (payload : RegistryAuthProtocolTokenPayload) : Bool :=
  match payload.exp with
  | none => false
  | some e => (e != 0) && decide (e ≤ now)

/-- token.ts lines 123-167: the `switch (request.method)` capability check.
`some r` means the switch returned `r` early; `none` means it fell through to
the namespace check. -/
def capabilityStep (request : Request) (payload : RegistryAuthProtocolTokenPayload) :
    Option VerifyResult :=
  match request.method with
  | "HEAD" =>
    if !(payload.capabilities.contains .pull) && !(payload.capabilities.contains .push) then
      some ⟨false, none⟩
    else none
  | "GET" =>
    if RegistryTokens.checkIfV2OnlyPath request && (payload.capabilities.length == 0) then
      some ⟨false, none⟩
    else if RegistryTokens.checkIfV2OnlyPath request then
      some ⟨true, some payload⟩
    else if !(payload.capabilities.contains .pull) then
      some ⟨false, none⟩
    else none
  | "POST" => if !(payload.capabilities.contains .push) then some ⟨false, none⟩ else none
  | "PUT" => if !(payload.capabilities.contains .push) then some ⟨false, none⟩ else none
  | "DELETE" => if !(payload.capabilities.contains .push) then some ⟨false, none⟩ else none
  | "PATCH" => if !(payload.capabilities.contains .push) then some ⟨false, none⟩ else none
  | _ => some ⟨false, none⟩

/-- token.ts line 169: `new URL(request.url).pathname.split("/")[2]` — the
derived namespace; `none` models JavaScript's `undefined` for an out-of-range
index. -/
def deriveNamespace (request : Request) : Option String :=
  (jsSplitSlash request.url.pathname).get? 2

/-- token.ts lines 170-173: `payload.aud && !payload.aud.includes(namespace)`.
An array is always truthy in JavaScript (even `[]`), so a present `aud` list
imposes the membership test; `includes(undefined)` on a string list is false. -/
def namespaceFails (request : Request) (payload : RegistryAuthProtocolTokenPayload) : Bool :=
  match payload.aud with
  | none => false
  | some l =>
    !(match deriveNamespace request with
      | some ns => l.contains ns
      | none => false)

/-- token.ts lines 113-176: `RegistryTokens.verifyPayload` — expiry check,
then the method/capability switch (with the `/v2/` early return), then the
namespace/audience check.  `now` stands for `Math.floor(Date.now() / 1000)`. -/
def RegistryTokens.verifyPayload (now : Int) (request : Request)
    (payload : RegistryAuthProtocolTokenPayload) : VerifyResult :=
  if expFails now payload then ⟨false, none⟩
  else
    match capabilityStep request payload with
    | some r => r
    | none =>
      if namespaceFails request payload then ⟨false, none⟩
      else ⟨true, some payload⟩

/-- token.ts lines 53-78: `createToken` — builds the payload (`username:"v0"`,
`iat = now`, `aud = namespaces`, `exp = now + 60*expirationMinutes` only when
`expirationMinutes` is supplied) and signs it with the supplied private key. -/
def RegistryTokens.createToken (now : Int) (caps : List RegistryTokenCapability)
    (privateKeyId : Nat) (namespaces : List String) (expirationMinutes : Option Int)
    (accountID : Option String) : JwtToken :=
  JwtToken.signed
    { username := "v0"
      account_id := accountID
      capabilities := caps
      iat := now
      exp := expirationMinutes.map (fun m => now + 60 * m)
      aud := some namespaces }
    privateKeyId

/-- token.ts lines 84-111: `verifyToken` — `jwt.verify` first (false or a
thrown error yields `{verified:false, payload:null}`), then decode and
`verifyPayload`; every thrown error is caught and converted to the failure
result. -/
def RegistryTokens.verifyToken (self : RegistryTokens) (now : Int) (request : Request)
    (token : JwtToken) : VerifyResult :=
  match jwtVerify token self.jwtPublicKey with
  | .error _ => ⟨false, none⟩
  | .ok false => ⟨false, none⟩
  | .ok true =>
    match jwtDecode token with
    | .error _ => ⟨false, none⟩
    | .ok payload => RegistryTokens.verifyPayload now request payload

/-- Modelled from the spec: `stripUsernamePasswordFromHeader` (declared in the
missing `src/auth.ts`), §4.5 — reads the `Authorization` header, requires the
`Basic` scheme, and returns the `username:password` pair, the password being
the candidate token; a missing/malformed/non-Basic header yields the
`{verified:false, payload:null}` failure value directly. -/
def stripUsernamePasswordFromHeader (request : Request) :
    Sum VerifyResult (String × JwtToken) :=
  match request.authorization with
  | none => .inl ⟨false, none⟩
  | some (.invalid _) => .inl ⟨false, none⟩
  | some (.basic username password) => .inr (username, password)

/-- token.ts lines 178-189: `checkCredentials` — extraction first; an
extraction failure is returned as-is; otherwise the password component is
verified. -/
def RegistryTokens.checkCredentials (self : RegistryTokens) (now : Int)
    (request : Request) : VerifyResult :=
  match stripUsernamePasswordFromHeader request with
  | .inl res => res
  | .inr (_, password) => self.verifyToken now request password

/-! Concrete fixtures used by counterexamples and witnesses. -/

def c1Req : Request :=
  { method := "GET"
    url := { origin := "https://registry.example.com", pathname := "/v2/teamA/manifest", search := "" }
    authorization := none }

def c1EmptyAudPayload : RegistryAuthProtocolTokenPayload :=
  { username := "v0", account_id := none, capabilities := [.pull], iat := 0, exp := none,
    aud := some [] }

def c1NoAudPayload : RegistryAuthProtocolTokenPayload :=
  { username := "v0", account_id := none, capabilities := [.pull], iat := 0, exp := none,
    aud := none }

def c2Req : Request :=
  { method := "GET"
    url := { origin := "https://registry.example.com", pathname := "/a/v2/", search := "" }
    authorization := none }

def c2PingReq : Request :=
  { method := "GET"
    url := { origin := "https://registry.example.com", pathname := "/v2/", search := "" }
    authorization := none }

def c2Payload : RegistryAuthProtocolTokenPayload :=
  { username := "v0", account_id := none, capabilities := [.push], iat := 0, exp := none,
    aud := some ["other"] }

def c3Req : Request :=
  { method := "GET"
    url := { origin := "https://registry.example.com", pathname := "/v2/teamA/manifest", search := "" }
    authorization := none }

def c4Req : Request :=
  { method := "HEAD"
    url := { origin := "https://registry.example.com", pathname := "/v2/teamA/blobs/x", search := "" }
    authorization := none }

def c4Payload : RegistryAuthProtocolTokenPayload :=
  { username := "v0", account_id := none, capabilities := [.push], iat := 0, exp := none,
    aud := none }

def c5Req : Request :=
  { method := "GET"
    url := { origin := "https://registry.example.com", pathname := "/v2/teamB/manifest", search := "" }
    authorization := none }

def c5Payload : RegistryAuthProtocolTokenPayload :=
  { username := "v0", account_id := none, capabilities := [.pull], iat := 0, exp := none,
    aud := some [] }

def c5ReqA : Request :=
  { method := "GET"
    url := { origin := "https://registry.example.io", pathname := "/v2/teamA/manifest", search := "" }
    authorization := none }

def c5PayloadA : RegistryAuthProtocolTokenPayload :=
  { username := "v0", account_id := none, capabilities := [.pull], iat := 0, exp := none,
    aud := some ["teamA"] }

def c6Req : Request :=
  { method := "GET"
    url := { origin := "https://registry.example.com", pathname := "/v2/", search := "" }
    authorization := none }

def c6Payload : RegistryAuthProtocolTokenPayload :=
  { username := "v0", account_id := none, capabilities := [.pull], iat := 0, exp := some 0,
    aud := none }

def c6ExpiredPayload : RegistryAuthProtocolTokenPayload :=
  { username := "v0", account_id := none, capabilities := [.pull], iat := 0, exp := some 50,
    aud := none }

def c9Req : Request :=
  { method := "GET"
    url := { origin := "https://registry.example.com", pathname := "/v2/teamA/manifest", search := "" }
    authorization := none }

def c10Req : Request :=
  { method := "GET"
    url := { origin := "https://registry.example.com", pathname := "/v2", search := "" }
    authorization := none }

def c10Payload : RegistryAuthProtocolTokenPayload :=
  { username := "v0", account_id := none, capabilities := [.pull], iat := 0, exp := none,
    aud := some ["teamA"] }

/-! Helper lemmas shared between the claim theorems. -/

/-- Every early return of the capability switch is either the failure result
or success carrying the decoded payload. -/
theorem capabilityStep_cases (request : Request) (payload : RegistryAuthProtocolTokenPayload)
    (r : VerifyResult) (h : capabilityStep request payload = some r) :
    r = ⟨false, none⟩ ∨ r = ⟨true, some payload⟩ := by
  unfold capabilityStep at h
  split at h <;> (repeat' split at h) <;> simp_all

/-- `verifyPayload` returns either success with the decoded payload or the
failure result. -/
theorem verifyPayload_cases (now : Int) (request : Request)
    (payload : RegistryAuthProtocolTokenPayload) :
    RegistryTokens.verifyPayload now request payload = ⟨true, some payload⟩ ∨
    RegistryTokens.verifyPayload now request payload = ⟨false, none⟩ := by
  unfold RegistryTokens.verifyPayload
  split
  · exact Or.inr rfl
  · split
    · rename_i r h
      rcases capabilityStep_cases _ _ _ h with h' | h' <;> simp [h']
    · split
      · exact Or.inr rfl
      · exact Or.inl rfl

/-- If `verifyPayload` reports `verified`, the result is exactly success with
the decoded payload. -/
theorem verifyPayload_eq_of_verified (now : Int) (request : Request)
    (payload : RegistryAuthProtocolTokenPayload)
    (h : (RegistryTokens.verifyPayload now request payload).verified = true) :
    RegistryTokens.verifyPayload now request payload = ⟨true, some payload⟩ := by
  rcases verifyPayload_cases now request payload with h' | h'
  · exact h'
  · rw [h'] at h
    simp at h

/-- `verifyToken` returns either the failure result or success carrying the
decoded payload. -/
theorem verifyToken_cases (self : RegistryTokens) (now : Int) (request : Request)
    (token : JwtToken) :
    self.verifyToken now request token = ⟨false, none⟩ ∨
    ∃ p, self.verifyToken now request token = ⟨true, some p⟩ := by
  unfold RegistryTokens.verifyToken
  split
  · exact Or.inl rfl
  · exact Or.inl rfl
  · split
    · exact Or.inl rfl
    · rename_i payload _
      rcases verifyPayload_cases now request payload with h | h
      · exact Or.inr ⟨payload, h⟩
      · exact Or.inl h

/-! Claim theorems. -/

/-- C1 (counterexample): a GET request for `/v2/teamA/manifest` with a payload
whose `aud` list is present but empty passes the expiry and capability checks
and reaches the namespace check, yet verification fails there — refuting the
claim that an empty `aud` imposes no namespace restriction.  The same payload
with `aud` absent verifies true, pinning the failure on the namespace check. -/
theorem C1_counterexample :
    expFails 0 c1EmptyAudPayload = false
    ∧ capabilityStep c1Req c1EmptyAudPayload = none
    ∧ RegistryTokens.verifyPayload 0 c1Req c1EmptyAudPayload = ⟨false, none⟩
    ∧ RegistryTokens.verifyPayload 0 c1Req c1NoAudPayload = ⟨true, some c1NoAudPayload⟩ := by
  decide

/-- C1 (amended): for every request that reaches the namespace/audience check
(capability switch fell through) with the expiry check passing, a payload with
an ABSENT `aud` is unrestricted by namespace (verification succeeds), while a
payload with a present-but-EMPTY `aud` list fails the namespace check. -/
theorem C1_empty_aud (now : Int) (request : Request)
    (payload : RegistryAuthProtocolTokenPayload)
    (hexp : expFails now payload = false)
    (hcap : capabilityStep request payload = none) :
    (payload.aud = none →
      RegistryTokens.verifyPayload now request payload = ⟨true, some payload⟩)
    ∧ (payload.aud = some [] →
      RegistryTokens.verifyPayload now request payload = ⟨false, none⟩) := by
  constructor <;> intro haud <;>
    · unfold RegistryTokens.verifyPayload
      rw [hexp, hcap]
      unfold namespaceFails
      rw [haud]
      cases h : deriveNamespace request <;> simp [h]

/-- C1 (witness). -/
theorem C1_witness :
    RegistryTokens.verifyPayload 0 c1Req c1NoAudPayload = ⟨true, some c1NoAudPayload⟩ :=
  (C1_empty_aud 0 c1Req c1NoAudPayload (by decide) (by decide)).1 rfl

/-- C2 (counterexample): a GET request whose URL path is `/a/v2/` — not the
path `/v2/` — with a push-only, `aud := ["other"]` payload verifies true: the
version-ping bypass (immediate success on non-empty capabilities, namespace
and `aud` skipped) applied to a request whose path is not exactly `/v2/`,
because the code tests `request.url.endsWith("/v2/")` on the whole URL
string.  Under the claim this request would have to fail (GET off the ping
path requires `pull`, and namespace `a` is not in `aud`). -/
theorem C2_counterexample :
    c2Req.method = "GET"
    ∧ c2Req.url.pathname ≠ "/v2/"
    ∧ c2Payload.capabilities.contains .pull = false
    ∧ namespaceFails c2Req c2Payload = true
    ∧ RegistryTokens.verifyPayload 0 c2Req c2Payload = ⟨true, some c2Payload⟩ := by
  decide

/-- C2 (amended): for every GET request passing the expiry check, the
version-ping bypass applies exactly when the request's full URL string ends
with `"/v2/"` (not when its path is exactly `/v2/`): in that case the result
is immediate failure on an empty capability set and immediate success
otherwise (namespace and `aud` skipped); for every other GET request the
normal pull-capability and namespace checks decide the outcome. -/
theorem C2_bypass (now : Int) (request : Request)
    (payload : RegistryAuthProtocolTokenPayload)
    (hm : request.method = "GET") (hexp : expFails now payload = false) :
    RegistryTokens.verifyPayload now request payload =
      if jsEndsWith request.url.href "/v2/" then
        (if payload.capabilities.length == 0 then ⟨false, none⟩ else ⟨true, some payload⟩)
      else if payload.capabilities.contains .pull then
        (if namespaceFails request payload then ⟨false, none⟩ else ⟨true, some payload⟩)
      else ⟨false, none⟩ := by
  have h1 : capabilityStep request payload =
      (if RegistryTokens.checkIfV2OnlyPath request && (payload.capabilities.length == 0) then
        some ⟨false, none⟩
      else if RegistryTokens.checkIfV2OnlyPath request then
        some ⟨true, some payload⟩
      else if !(payload.capabilities.contains .pull) then
        some ⟨false, none⟩
      else none) := by
    unfold capabilityStep
    rw [hm]
    split <;> simp_all
  unfold RegistryTokens.verifyPayload
  rw [hexp, h1]
  unfold RegistryTokens.checkIfV2OnlyPath
  cases hv : jsEndsWith request.url.href "/v2/" <;>
    cases hc : payload.capabilities.length == 0 <;>
      cases hp : payload.capabilities.contains .pull <;>
        simp [hv, hc, hp]

/-- C2 (witness): the ping request itself, with a pull capability. -/
theorem C2_witness :
    RegistryTokens.verifyPayload 0 c2PingReq c5PayloadA =
      if jsEndsWith c2PingReq.url.href "/v2/" then
        (if c5PayloadA.capabilities.length == 0 then ⟨false, none⟩ else ⟨true, some c5PayloadA⟩)
      else if c5PayloadA.capabilities.contains .pull then
        (if namespaceFails c2PingReq c5PayloadA then ⟨false, none⟩ else ⟨true, some c5PayloadA⟩)
      else ⟨false, none⟩ :=
  C2_bypass 0 c2PingReq c5PayloadA rfl rfl

/-- C3: round-trip — verifying a token produced by `createToken` under the
matching key pair, against a request the token's payload authorizes, yields
`verified := true` with the payload whose `capabilities`, `aud` and
`account_id` equal the inputs given to `createToken`. -/
theorem C3_roundtrip (now vnow : Int) (keyId : Nat) (request : Request)
    (caps : List RegistryTokenCapability) (namespaces : List String)
    (expirationMinutes : Option Int) (accountID : Option String)
    (hauth : (RegistryTokens.verifyPayload vnow request
      { username := "v0", account_id := accountID, capabilities := caps, iat := now,
        exp := expirationMinutes.map (fun m => now + 60 * m),
        aud := some namespaces }).verified = true) :
    RegistryTokens.verifyToken ⟨keyId⟩ vnow request
        (RegistryTokens.createToken now caps keyId namespaces expirationMinutes accountID) =
      ⟨true, some { username := "v0", account_id := accountID, capabilities := caps,
                    iat := now, exp := expirationMinutes.map (fun m => now + 60 * m),
                    aud := some namespaces }⟩ := by
  unfold RegistryTokens.verifyToken RegistryTokens.createToken jwtVerify jwtDecode
  simp only [beq_self_eq_true]
  exact verifyPayload_eq_of_verified vnow request _ hauth

/-- C3 (witness): key pair 7, pull capability, namespace teamA, 5-minute
expiry, account id, verified at time 10 against GET `/v2/teamA/manifest`. -/
theorem C3_witness :
    RegistryTokens.verifyToken ⟨7⟩ 10 c3Req
        (RegistryTokens.createToken 0 [.pull] 7 ["teamA"] (some 5) (some "acct")) =
      ⟨true, some { username := "v0", account_id := some "acct", capabilities := [.pull],
                    iat := 0, exp := (some (5 : Int)).map (fun m => 0 + 60 * m),
                    aud := some ["teamA"] }⟩ :=
  C3_roundtrip 0 10 7 c3Req [.pull] ["teamA"] (some 5) (some "acct") (by decide)

/-- C4: the capability check is exactly the method table — HEAD needs pull or
push; GET off the ping path needs pull; POST, PUT, DELETE and PATCH need push;
any other method makes the whole verification fail unconditionally, regardless
of the capability set. -/
theorem C4_method_table (now : Int) (request : Request)
    (payload : RegistryAuthProtocolTokenPayload) :
    (request.method = "HEAD" → capabilityStep request payload =
      (if payload.capabilities.contains .pull || payload.capabilities.contains .push then none
       else some ⟨false, none⟩))
    ∧ (request.method = "GET" → RegistryTokens.checkIfV2OnlyPath request = false →
      capabilityStep request payload =
        (if payload.capabilities.contains .pull then none else some ⟨false, none⟩))
    ∧ ((request.method = "POST" ∨ request.method = "PUT" ∨ request.method = "DELETE" ∨
        request.method = "PATCH") → capabilityStep request payload =
        (if payload.capabilities.contains .push then none else some ⟨false, none⟩))
    ∧ (request.method ∉ (["HEAD", "GET", "POST", "PUT", "DELETE", "PATCH"] : List String) →
      RegistryTokens.verifyPayload now request payload = ⟨false, none⟩) := by
  refine ⟨?_, ?_, ?_, ?_⟩
  · intro hm
    unfold capabilityStep
    rw [hm]
    cases ha : payload.capabilities.contains .pull <;>
      cases hb : payload.capabilities.contains .push <;> simp_all
  · intro hm hv
    unfold capabilityStep
    rw [hm]
    cases hp : payload.capabilities.contains .pull <;> simp_all
  · intro hm
    unfold capabilityStep
    rcases hm with hm | hm | hm | hm <;> rw [hm] <;>
      cases hp : payload.capabilities.contains .push <;> simp_all
  · intro hm
    have hstep : capabilityStep request payload = some ⟨false, none⟩ := by
      unfold capabilityStep
      split <;> simp_all
    unfold RegistryTokens.verifyPayload
    rw [hstep]
    split <;> rfl

/-- C4 (witness): a HEAD request against a push-only payload. -/
theorem C4_witness :
    capabilityStep c4Req c4Payload =
      (if c4Payload.capabilities.contains .pull || c4Payload.capabilities.contains .push then none
       else some ⟨false, none⟩) :=
  (C4_method_table 0 c4Req c4Payload).1 rfl

/-- C5 (counterexample): a GET request for `/v2/teamB/manifest` with `pull`
capability and a present-but-empty `aud` list passes the expiry and capability
checks, yet verification fails — under the claim ("fails exactly when aud is
non-empty and the namespace is not a member") an empty `aud` could not cause
a failure. -/
theorem C5_counterexample :
    expFails 0 c5Payload = false
    ∧ capabilityStep c5Req c5Payload = none
    ∧ c5Payload.aud = some []
    ∧ RegistryTokens.verifyPayload 0 c5Req c5Payload = ⟨false, none⟩ := by
  decide

/-- C5 (amended): for every request passing the expiry and capability checks
on a non-ping path, the namespace is derived as index 2 of the `/`-split of
the URL's pathname, and verification fails exactly when `aud` is PRESENT and
the derived namespace is not a member of it — in particular a present empty
`aud` list fails every such request, and an absent namespace (short path)
fails every present `aud`. -/
theorem C5_namespace (now : Int) (request : Request)
    (payload : RegistryAuthProtocolTokenPayload)
    (hexp : expFails now payload = false)
    (hcap : capabilityStep request payload = none) :
    RegistryTokens.verifyPayload now request payload =
      match payload.aud, (jsSplitSlash request.url.pathname).get? 2 with
      | none, _ => ⟨true, some payload⟩
      | some l, some ns => if l.contains ns then ⟨true, some payload⟩ else ⟨false, none⟩
      | some _, none => ⟨false, none⟩ := by
  unfold RegistryTokens.verifyPayload
  rw [hexp, hcap]
  unfold namespaceFails deriveNamespace
  cases haud : payload.aud with
  | none => simp
  | some l =>
    cases hns : (jsSplitSlash request.url.pathname).get? 2 with
    | none => simp
    | some ns => cases hc : l.contains ns <;> simp [hc]

/-- C5 (witness): `aud = ["teamA"]` with `pull` verifies true for GET
`/v2/teamA/manifest`. -/
theorem C5_witness :
    RegistryTokens.verifyPayload 0 c5ReqA c5PayloadA = ⟨true, some c5PayloadA⟩ := by
  have h := C5_namespace 0 c5ReqA c5PayloadA (by decide) (by decide)
  rw [h]
  rfl

/-- C6 (counterexample): a payload with `exp = 0` — present, and in the past
at verification time 100 — verifies true on the ping path with a pull
capability: `payload.exp && ...` treats the number 0 as falsy, so a present
zero `exp` never triggers the expiry failure, contradicting "if exp is present
and now >= exp, verification yields verified:false". -/
theorem C6_counterexample :
    c6Payload.exp = some 0
    ∧ RegistryTokens.verifyPayload 100 c6Req c6Payload = ⟨true, some c6Payload⟩ := by
  decide

/-- C6 (amended): if `exp` is present, NONZERO and `now >= exp`, verification
fails; if `exp` is present and `now < exp` (other checks passing) it succeeds;
if `exp` is absent the pipeline never fails on expiry (the result is decided
by the capability and namespace checks alone).  A present `exp` equal to 0 is
treated like an absent one. -/
theorem C6_expiry (now : Int) (request : Request)
    (payload : RegistryAuthProtocolTokenPayload) (e : Int) :
    (payload.exp = some e → e ≠ 0 → e ≤ now →
      RegistryTokens.verifyPayload now request payload = ⟨false, none⟩)
    ∧ (payload.exp = some e → now < e → capabilityStep request payload = none →
      namespaceFails request payload = false →
      RegistryTokens.verifyPayload now request payload = ⟨true, some payload⟩)
    ∧ (payload.exp = none →
      RegistryTokens.verifyPayload now request payload =
        match capabilityStep request payload with
        | some r => r
        | none =>
          if namespaceFails request payload then ⟨false, none⟩ else ⟨true, some payload⟩) := by
  refine ⟨?_, ?_, ?_⟩
  · intro he hz hle
    have hfail : expFails now payload = true := by
      unfold expFails
      rw [he]
      simp [hz, hle]
    unfold RegistryTokens.verifyPayload
    rw [hfail]
    rfl
  · intro he hlt hcap hns
    have hok : expFails now payload = false := by
      unfold expFails
      rw [he]
      simp [not_le.mpr hlt]
    unfold RegistryTokens.verifyPayload
    rw [hok, hcap, hns]
    rfl
  · intro he
    have hok : expFails now payload = false := by
      unfold expFails
      rw [he]
    unfold RegistryTokens.verifyPayload
    rw [hok]
    rfl

/-- C6 (witness): `exp = 50` verified at time 100 fails. -/
theorem C6_witness :
    RegistryTokens.verifyPayload 100 c6Req c6ExpiredPayload = ⟨false, none⟩ :=
  (C6_expiry 100 c6Req c6ExpiredPayload 50).1 rfl (by decide) (by decide)

/-- C7: `verifyToken` is a total function to the `{verified, payload}` shape —
every failure of any stage is converted to `{verified := false, payload :=
none}`, and the payload is present in the result exactly when `verified` is
true. -/
theorem C7_result_shape (self : RegistryTokens) (now : Int) (request : Request)
    (token : JwtToken) :
    (self.verifyToken now request token).payload.isSome =
      (self.verifyToken now request token).verified
    ∧ (self.verifyToken now request token = ⟨false, none⟩ ∨
       ∃ p, self.verifyToken now request token = ⟨true, some p⟩) := by
  rcases verifyToken_cases self now request token with h | ⟨p, h⟩ <;>
    rw [h] <;> simp

/-- C8: every payload built by `createToken` has `username = "v0"`, `iat` set
to the signing-time clock, `aud` equal to the supplied namespaces,
`account_id` and `capabilities` equal to the inputs, and `exp` present if and
only if `expirationMinutes` was supplied, in which case `exp = iat +
60*expirationMinutes`. -/
theorem C8_payload_fields (now : Int) (caps : List RegistryTokenCapability) (keyId : Nat)
    (namespaces : List String) (expirationMinutes : Option Int) (accountID : Option String) :
    ∃ p, (RegistryTokens.createToken now caps keyId namespaces expirationMinutes
        accountID).signedPayload = some p
      ∧ p.username = "v0" ∧ p.iat = now ∧ p.aud = some namespaces
      ∧ p.account_id = accountID ∧ p.capabilities = caps
      ∧ p.exp = expirationMinutes.map (fun m => p.iat + 60 * m) :=
  ⟨_, rfl, rfl, rfl, rfl, rfl, rfl, rfl⟩

/-- C9: `checkCredentials` runs credential extraction first; an extraction
failure is returned unchanged, and otherwise exactly the password component of
the extracted Basic credentials is verified. -/
theorem C9_composition (self : RegistryTokens) (now : Int) (request : Request) :
    (∀ res, stripUsernamePasswordFromHeader request = .inl res →
      self.checkCredentials now request = res)
    ∧ (∀ username password,
      stripUsernamePasswordFromHeader request = .inr (username, password) →
      self.checkCredentials now request = self.verifyToken now request password) := by
  constructor
  · intro res h
    unfold RegistryTokens.checkCredentials
    rw [h]
  · intro username password h
    unfold RegistryTokens.checkCredentials
    rw [h]

/-- C9 (witness): a request with no Authorization header. -/
theorem C9_witness : RegistryTokens.checkCredentials ⟨0⟩ 0 c9Req = ⟨false, none⟩ :=
  (C9_composition ⟨0⟩ 0 c9Req).1 ⟨false, none⟩ rfl

/-- C10: for a request whose URL pathname splits into fewer than three
`/`-delimited segments, the namespace derivation `split("/")[2]` yields no
value (it is total, returning `none`, not an error), and a payload with a
non-empty `aud` that reaches the namespace check fails, since the missing
namespace is not a member of `aud`. -/
theorem C10_short_path (now : Int) (request : Request)
    (payload : RegistryAuthProtocolTokenPayload) (l : List String)
    (hlen : (jsSplitSlash request.url.pathname).length ≤ 2)
    (hexp : expFails now payload = false)
    (hcap : capabilityStep request payload = none)
    (haud : payload.aud = some l) (hne : l ≠ []) :
    (jsSplitSlash request.url.pathname).get? 2 = none
    ∧ RegistryTokens.verifyPayload now request payload = ⟨false, none⟩ := by
  have hget : (jsSplitSlash request.url.pathname).get? 2 = none :=
    List.get?_eq_none.mpr hlen
  refine ⟨hget, ?_⟩
  unfold RegistryTokens.verifyPayload
  rw [hexp, hcap]
  unfold namespaceFails deriveNamespace
  rw [haud, hget]
  simp

/-- C10 (witness): GET of path `/v2` with `pull` capability and
`aud = ["teamA"]`. -/
theorem C10_witness :
    (jsSplitSlash c10Req.url.pathname).get? 2 = none
    ∧ RegistryTokens.verifyPayload 0 c10Req c10Payload = ⟨false, none⟩ :=
  C10_short_path 0 c10Req c10Payload ["teamA"] (by decide) (by decide) (by decide) rfl
    (by decide)

end ServerlessRegistry
